import Mathlib

/-!
Verification of the ejudge build/execution orchestration core.

This file shallowly embeds the parts of the `ejudge` Python package that the
claims under scrutiny talk about: `build_manager.py`, `execution_manager.py`,
`registry_class.py`, `functions.py` and the language registrations in
`langs/__init__.py`.  Pure control flow is translated to Lean functions;
mutation of Python objects is translated to explicit state passing, and raised
exceptions to an `Except`/`Option` error component.  The `iospec` and `boxed`
packages are external collaborators of the repository; the small surface used
by the code (trace nodes, test-case classifications, the process handle) is
modelled from the specification's data model.
-/

namespace Ejudge

/-! ## String helpers modelling Python primitives -/

/-- Model of Python's `str.startswith`, computed on the character list. -/
def pyStartsWith (s p : String) : Bool :=
  p.toList.isPrefixOf s.toList

/-- Model of Python's `str.endswith`, computed on the character list. -/
def pyEndsWith (s p : String) : Bool :=
  p.toList.isSuffixOf s.toList

/-- Model of Python's `repr` on a string without quotes or escapes inside:
`repr(s) == "'" + s + "'"`.  All strings the embedded code passes through
`%r` in the claims at issue are of this simple shape. -/
def pyRepr (s : String) : String := "'" ++ s ++ "'"

/-- Model of Python's `str.lstrip('.')`: drop every leading dot. -/
def stripLeadingDots (s : String) : String :=
  String.mk (s.toList.dropWhile (fun c => c = '.'))

/-- Model of `os.path.join(a, b)` on POSIX: an absolute second component
replaces the first, otherwise the components are glued with a single `/`. -/
def osPathJoin (a b : String) : String :=
  if pyStartsWith b "/" then b
  else if pyEndsWith a "/" then a ++ b
  else a ++ "/" ++ b

/-! ## Filesystem model

The temporary build directory's contents are modelled as an association list
from absolute file names to file contents.  Opening a file with mode `'w'`
overwrites an existing entry. -/

/-- Store `(p, v)` in the file table, overwriting an existing entry for `p`. -/
def storeFile (fs : List (String × String)) (p v : String) :
    List (String × String) :=
  if fs.any (fun e => e.1 = p) then
    fs.map (fun e => if e.1 = p then (p, v) else e)
  else fs ++ [(p, v)]

/-- Model of `os.path.exists` restricted to the modelled file table. -/
def fileExists (fs : List (String × String)) (p : String) : Bool :=
  fs.any (fun e => e.1 = p)

/-! ## Exceptions

Python exceptions are modelled as one inductive.  The `is...` predicates below
encode which `except` clauses match which exception, following CPython's class
hierarchy.  In particular `subprocess.TimeoutExpired` derives from
`SubprocessError`, which derives directly from `Exception`; it is *not* a
subclass of the builtin `TimeoutError` (an `OSError` subclass), so an
`except TimeoutError:` clause does not catch it. -/

inductive PyExc where
  | buildError (msg : String)
  | runtimeError (msg : String)
  | missingInputError (msg : String)
  | timeoutError (msg : String)
  | subprocessTimeoutExpired (msg : String)
  | calledProcessError (combinedOutput : String)
  | permissionError (msg : String)
  | attributeError (msg : String)
  | valueError (msg : String)
  | assertionError (msg : String)
  | userException (msg : String)
deriving DecidableEq, Repr

/-- Matching for `except TimeoutError:`.  Only the builtin `TimeoutError`
matches; `subprocess.TimeoutExpired` is not in its subclass tree. -/
def PyExc.isTimeoutError : PyExc → Bool
  | .timeoutError _ => true
  | _ => false

/-- Matching for `except subprocess.CalledProcessError:`. -/
def PyExc.isCalledProcessError : PyExc → Bool
  | .calledProcessError _ => true
  | _ => false

/-- Matching for `except Exception:`.  Every exception the embedded code can
raise derives from `Exception`. -/
def PyExc.isException : PyExc → Bool := fun _ => true

/-- Class name of the exception, as used when a diagnostic is rendered. -/
def PyExc.className : PyExc → String
  | .buildError _ => "BuildError"
  | .runtimeError _ => "RuntimeError"
  | .missingInputError _ => "MissingInputError"
  | .timeoutError _ => "TimeoutError"
  | .subprocessTimeoutExpired _ => "TimeoutExpired"
  | .calledProcessError _ => "CalledProcessError"
  | .permissionError _ => "PermissionError"
  | .attributeError _ => "AttributeError"
  | .valueError _ => "ValueError"
  | .assertionError _ => "AssertionError"
  | .userException _ => "Exception"

/-- Message payload of the exception. -/
def PyExc.message : PyExc → String
  | .buildError m => m
  | .runtimeError m => m
  | .missingInputError m => m
  | .timeoutError m => m
  | .subprocessTimeoutExpired m => m
  | .calledProcessError m => m
  | .permissionError m => m
  | .attributeError m => m
  | .valueError m => m
  | .assertionError m => m
  | .userException m => m

/-! ## Trace data model

Modelled from the spec: the `iospec` package (an external collaborator, §6 of
the spec) supplies `In`/`Out` trace nodes and the `SimpleTestCase` /
`ErrorTestCase` constructors with their terminal classifications (§3: success,
build-error, runtime-error, timeout, early-termination). -/

/-- One node of an interaction trace: a consumed input or captured output. -/
inductive Node where
  | inp (data : String)
  | out (data : String)
deriving DecidableEq, Repr

/-- Terminal classification of a test case, from the spec's taxonomy. -/
inductive CaseType where
  | success
  | buildErr
  | runtimeErr
  | timeoutErr
  | earlyTermination
deriving DecidableEq, Repr

/-- A test case: the ordered trace nodes, the terminal classification, and an
optional diagnostic message. -/
structure TestCase where
  ctype : CaseType
  data : List Node
  errorMessage : Option String
deriving DecidableEq, Repr

/-- Modelled from the spec: `iospec.SimpleTestCase(data)`, a
success-classified trace. -/
def SimpleTestCase (data : List Node) : TestCase :=
  ⟨.success, data, none⟩

/-- Modelled from the spec: `iospec.ErrorTestCase.timeout(data=[])`, a
timeout-classified trace. -/
def ErrorTestCase.timeout (data : List Node) : TestCase :=
  ⟨.timeoutErr, data, none⟩

/-- Modelled from the spec: `iospec.ErrorTestCase.runtime(data,
error_message=msg)`, a runtime-error-classified trace. -/
def ErrorTestCase.runtime (data : List Node) (msg : String) : TestCase :=
  ⟨.runtimeErr, data, some msg⟩

/-- Modelled from the spec: `iospec.ErrorTestCase.build(error_message=msg)`,
a build-error-classified trace. -/
def ErrorTestCase.buildCase (msg : String) : TestCase :=
  ⟨.buildErr, [], some msg⟩

/-- Strip a trailing newline from the final node when it is an `Out` node
(`util.remove_trailing_newline_from_testcase`, final `if` body). -/
def stripLastOutNewline : List Node → List Node
  | [] => []
  | [Node.out s] =>
      if pyEndsWith s "\n" then [Node.out (s.dropRight 1)] else [Node.out s]
  | [n] => [n]
  | n :: rest => n :: stripLastOutNewline rest

/-- Embedding of `util.remove_trailing_newline_from_testcase` (util.py lines
161-173): when the case has at least one node and the last node is an output
ending in a newline, that newline is removed. -/
def remove_trailing_newline_from_testcase (case : TestCase) : TestCase :=
  if case.data.isEmpty then case
  else { case with data := stripLastOutNewline case.data }

/-- Modelled from the spec: `iospec.TestCase.normalize(stream=True)` (an
external collaborator) collapses the trace to the whole stdin feed and the
whole stdout feed, one node each (spec §4.3, stream-compare sub-mode).  The
classification is unchanged. -/
def normalizeStream (tc : TestCase) : TestCase :=
  let ins := tc.data.filterMap fun n =>
    match n with | .inp s => some s | .out _ => none
  let outs := tc.data.filterMap fun n =>
    match n with | .out s => some s | .inp _ => none
  { tc with data :=
      [Node.inp (String.intercalate "" ins), Node.out (String.intercalate "" outs)] }

/-! ## build_manager.py: ExternalProgramBuildManager

One external-program build manager, with its mutable Python attributes made
explicit.  `syntaxOk`/`syntaxMsg` summarise the outcome of the
language-specific `syntax_check()` (which shells out to an external
toolchain); `files` is the modelled filesystem.  Methods are translated to
state-passing functions returning the mutated object together with
`Except PyExc` for the raised-or-returned outcome, so that mutations that
happen before an exception propagates stay visible. -/

structure ExtBuild where
  source : String
  sourceExtension : String
  syntaxOk : Bool
  syntaxMsg : String
  isSandboxed : Bool
  isBuilt : Bool
  isClosed : Bool
  buildPath : Option String
  files : List (String × String)
deriving DecidableEq, Repr

/-- The local `name` computed by
`ExternalProgramBuildManager.get_source_filename` (build_manager.py lines
220-224): `main` plus the source extension with leading dots stripped. -/
def extSourceName (ext : String) : String :=
  if stripLeadingDots ext = "" then "main"
  else "main." ++ stripLeadingDots ext

/-- The canonical relative source file name of a build manager. -/
def ExtBuild.sourceName (bm : ExtBuild) : String :=
  extSourceName bm.sourceExtension

/-- Embedding of `ExternalProgramBuildManager.get_source_filename`
(build_manager.py lines 215-228): the canonical name, joined to the build
path when `absolute` is set. -/
def ExtBuild.get_source_filename (bm : ExtBuild) (absolute : Bool) : String :=
  if absolute then osPathJoin (bm.buildPath.getD "") bm.sourceName
  else bm.sourceName

/-- The `PermissionError` message produced by `write` (build_manager.py lines
176-178): `'cannot write %r: outside build directory %r' % (path, build_path)`. -/
def writeDeniedMsg (path bp : String) : String :=
  "cannot write " ++ pyRepr path ++ ": outside build directory " ++ pyRepr bp

/-- Embedding of `ExternalProgramBuildManager.write` (build_manager.py lines
165-190).  Requires a build path; rejects with `PermissionError` any `path`
that does not literally start with `build_path + os.path.sep`; otherwise
writes `data` at `os.path.join(build_path, path)`. -/
def ExtBuild.write (bm : ExtBuild) (path data : String) :
    ExtBuild × Except PyExc Unit :=
  match bm.buildPath with
  | none =>
      (bm, .error (.runtimeError "must create temporary directory first!"))
  | some bp =>
      if ¬ pyStartsWith path (bp ++ "/") then
        (bm, .error (.permissionError (writeDeniedMsg path bp)))
      else
        let fullPath := osPathJoin bp path
        ({ bm with files := storeFile bm.files fullPath data }, .ok ())

/-- Embedding of `ExternalProgramBuildManager.prepare_files` (build_manager.py
lines 192-201): write the source to the canonical filename, or raise
`RuntimeError` when that file already exists. -/
def ExtBuild.prepare_files (bm : ExtBuild) : ExtBuild × Except PyExc Unit :=
  let filename := bm.get_source_filename true
  if fileExists bm.files filename then
    (bm, .error (.runtimeError ("file already exist: " ++ pyRepr filename)))
  else
    bm.write filename bm.source

/-- Embedding of `ExternalProgramBuildManager.build` together with the base
class helpers `_build_start`/`_build_end` (build_manager.py lines 53-74 and
135-143), for an interpreted (non-compiled) external language:

1. `_build_start`: `syntax_check()`; a `SyntaxError` becomes `BuildError`.
2. `_build_run`: allocate a temp directory if `build_path` is falsy
   (`tempName` stands for the fresh name `tempfile.mkdtemp` returns), then
   `prepare_files()`.
3. `_build_end`: set `is_built`.

Note there is no early return when `is_built` is already true. -/
def ExtBuild.buildStep (bm : ExtBuild) (tempName : String) :
    ExtBuild × Except PyExc Unit :=
  if ¬ bm.syntaxOk then
    (bm, .error (.buildError bm.syntaxMsg))
  else
    let bm1 := if bm.buildPath.getD "" = "" then
                 { bm with buildPath := some tempName }
               else bm
    match bm1.prepare_files with
    | (bm2, .error e) => (bm2, .error e)
    | (bm2, .ok _) => ({ bm2 with isBuilt := true }, .ok ())

/-- Embedding of `BuildManager.close` (build_manager.py lines 76-81), the only
`close` in the hierarchy: it sets `is_closed` and nothing else (no subclass
overrides it and the repository contains no temp-directory removal). -/
def ExtBuild.close (bm : ExtBuild) : ExtBuild :=
  { bm with isClosed := true }

/-! ## build_manager.py: CompiledLanguageBuildManager.compile_files -/

/-- Outcome of the `subprocess.check_output` compiler invocation in
`compile_files`. -/
inductive CompileOutcome where
  | success
  | nonzeroExit (combinedOutput : String)
  | timedOut
deriving DecidableEq, Repr

/-- The wall-clock bound passed to `subprocess.check_output` at
build_manager.py line 255: `timeout=10` seconds. -/
def compileInvocationTimeout : Nat := 10

/-- Exception raised (if any) by `subprocess.check_output(build_args, ...,
timeout=10)`: a non-zero exit status raises `CalledProcessError` carrying the
combined stdout/stderr, exceeding the timeout raises
`subprocess.TimeoutExpired`. -/
def checkOutputResult : CompileOutcome → Except PyExc String
  | .success => .ok ""
  | .nonzeroExit out => .error (.calledProcessError out)
  | .timedOut => .error (.subprocessTimeoutExpired "command timed out")

/-- Embedding of `CompiledLanguageBuildManager.compile_files`
(build_manager.py lines 243-278): run the compiler under the 10 s bound; an
exception from it is dispatched through `except TimeoutError:` (which turns
the matched exception into `BuildError('compilation is taking too long')`)
then `except subprocess.CalledProcessError as ex:` (which turns it into
`BuildError(ex.output.decode('utf8'))`); anything matching neither clause
propagates. -/
def compile_files (outcome : CompileOutcome) : Except PyExc Unit :=
  match checkOutputResult outcome with
  | .ok _ => .ok ()
  | .error e =>
      if e.isTimeoutError then
        .error (.buildError "compilation is taking too long")
      else if e.isCalledProcessError then
        .error (.buildError e.message)
      else
        .error e

/-! ## execution_manager.py: the base ExecutionManager.run pipeline

The base-class fields of `BuildManager` that `run` touches, and the
`ExecutionManager` instance state.  `run` delegates to the abstract
`interact(timeout)`; its outcome (a returned test case, or a raised
exception) is passed in as a parameter, as is the outcome of the lazy
`build()` call made by `start()` when the manager is not yet built. -/

structure BMState where
  isBuilt : Bool
  isClosed : Bool
  hasSuccessfulExecution : Bool
deriving DecidableEq, Repr

structure EMState where
  isStarted : Bool
  isClosed : Bool
  interaction : List Node
deriving DecidableEq, Repr

/-- Embedding of `ExecutionManager.end` plus the tail of `run`
(execution_manager.py lines 100-105 and 155-164): mark the manager closed,
unconditionally set the build manager's `has_successful_execution` flag,
normalize for stream comparison when configured, and strip the trailing
newline of the final output node. -/
def finishRun (em : EMState) (bm : BMState) (tc : TestCase)
    (compareStreams : Bool) :
    EMState × BMState × Except PyExc TestCase :=
  let em1 := { em with isClosed := true }
  let bm1 := { bm with hasSuccessfulExecution := true }
  let tc1 := if compareStreams then normalizeStream tc else tc
  (em1, bm1, .ok (remove_trailing_newline_from_testcase tc1))

/-- Embedding of `ExecutionManager.run` (execution_manager.py lines 80-105)
with `start` (lines 141-153) inlined:

* raise `RuntimeError` if this manager or its build manager is closed, or if
  it already started;
* `start()`: lazily `build()` the build manager when not built (the outcome
  of that call is the `buildResult` parameter; an exception from it
  propagates), and set `is_started`;
* run `interact(timeout)` under `try/except TimeoutError`, substituting
  `ErrorTestCase.timeout()` when a `TimeoutError` escapes; any other
  exception propagates (skipping `end`);
* `end()` and the result post-processing, via `finishRun`. -/
def ExecutionManager.run (em : EMState) (bm : BMState)
    (buildResult : Except PyExc Unit)
    (interactOutcome : Except PyExc TestCase)
    (compareStreams : Bool) :
    EMState × BMState × Except PyExc TestCase :=
  if em.isClosed || bm.isClosed then
    (em, bm, .error (.runtimeError
      "Program already executed. Cannot run it again."))
  else if em.isStarted then
    (em, bm, .error (.runtimeError
      "Program already started execution. Please create another ExecutionManager instance."))
  else
    match (if bm.isBuilt then .ok () else buildResult) with
    | .error e => (em, bm, .error e)
    | .ok _ =>
        let bm1 := { bm with isBuilt := true }
        let em1 := { em with isStarted := true }
        match interactOutcome with
        | .ok tc => finishRun em1 bm1 tc compareStreams
        | .error e =>
            if e.isTimeoutError then
              finishRun em1 bm1 (ErrorTestCase.timeout []) compareStreams
            else
              (em1, bm1, .error e)

/-! ## execution_manager.py: IntegratedExecutionManager

The instrumented `print`/`input` builtins installed for the duration of an
in-process run, and `wrapped_exec`.  The untrusted program is modelled as the
sequence of I/O-relevant operations it performs. -/

/-- One observable operation of the executed in-process program:

* `printStdout t`: a `print` call whose `file` argument is `None` or
  `sys.stdout`, rendering the payload `t` (separator and arguments already
  joined) before the default newline end;
* `printFile t`: a `print` call with an explicit `file` that is neither
  `None` nor `sys.stdout`;
* `inputOp prompt`: an `input()` call with an optional prompt;
* `raiseOp msg`: the program raises an exception. -/
inductive PyOp where
  | printStdout (t : String)
  | printFile (t : String)
  | inputOp (prompt : Option String)
  | raiseOp (msg : String)
deriving DecidableEq, Repr

/-- Mutable state visible to the instrumented builtins: the interaction
trace, the not-yet-consumed inputs (`consumed_inputs` is the reversed input
tuple popped from the end, i.e. the original order consumed front-first), and
the text forwarded to the real `print` for non-stdout files. -/
structure IoState where
  interaction : List Node
  remaining : List String
  external : List String
deriving DecidableEq, Repr

/-- Append output text to the trace, coalescing with a trailing `Out` node
(execution_manager.py lines 274-277: `self.interaction[-1] += Out(data)`). -/
def appendOut (interaction : List Node) (data : String) : List Node :=
  match interaction.getLast? with
  | some (Node.out s) => interaction.dropLast ++ [Node.out (s ++ data)]
  | _ => interaction ++ [Node.out data]

/-- Embedding of one step of the instrumented builtins
(`IntegratedExecutionManager.builtins`, execution_manager.py lines 256-290):

* the replacement `print` captures the rendered text into the trace only when
  directed at stdout (`file is None or file is sys.stdout`); otherwise it
  forwards the call to the saved real `print` unchanged and records nothing;
* the replacement `input` prints a given prompt with `end=''`, then pops the
  next unconsumed input and appends an `In` node, or raises
  `MissingInputError('not enough inputs')` when the supply is exhausted;
* a `raiseOp` raises the program's own exception. -/
def stepOp (st : IoState) : PyOp → IoState × Option PyExc
  | .printStdout t =>
      ({ st with interaction := appendOut st.interaction (t ++ "\n") }, none)
  | .printFile t =>
      ({ st with external := st.external ++ [t ++ "\n"] }, none)
  | .inputOp prompt =>
      let st1 := match prompt with
        | some p => { st with interaction := appendOut st.interaction p }
        | none => st
      match st1.remaining with
      | r :: rest =>
          ({ st1 with interaction := st1.interaction ++ [Node.inp r],
                      remaining := rest }, none)
      | [] => (st1, some (.missingInputError "not enough inputs"))
  | .raiseOp msg => (st, some (.userException msg))

/-- Run the program's operations in order, stopping at the first raised
exception (which propagates out of the `exec`). -/
def runOps : List PyOp → IoState → IoState × Option PyExc
  | [], st => (st, none)
  | op :: rest, st =>
      match stepOp st op with
      | (st1, none) => runOps rest st1
      | (st1, some e) => (st1, some e)

/-- Simplified rendering of `util.format_traceback`: the diagnostic built
from a caught exception ends in `'%s: %s' % (type(ex).__name__, ex)`; the
judge-internal frame trimming and source-line substitution are abstracted
into this final line. -/
def format_traceback (e : PyExc) : String :=
  e.className ++ ": " ++ e.message

/-- Embedding of `IntegratedExecutionManager.wrapped_exec`
(execution_manager.py lines 184-193): execute the program with the
instrumented builtins installed; an uncaught exception is formatted and
turned into a runtime-error-classified trace carrying the interaction
collected so far, otherwise the interaction becomes a success-classified
trace. -/
def wrapped_exec (program : List PyOp) (inputs : List String) : TestCase :=
  match runOps program ⟨[], inputs, []⟩ with
  | (st, none) => SimpleTestCase st.interaction
  | (st, some e) => ErrorTestCase.runtime st.interaction (format_traceback e)

/-! ## execution_manager.py: PInteractExecutionManager.run_pinteract

The external process behind the `Pinteract` handle (an external collaborator
from the `boxed` package) is modelled by the output it produces before the
first input, and by what happens at each `send`/`receive` round. -/

/-- Behaviour of the external process at one iteration of the input loop:

* `ok out`: `send` succeeds and the following `receive` returns `out`
  (possibly empty);
* `okReceiveTimeout`: `send` succeeds but the following `receive` raises
  `TimeoutError`;
* `sendFailDead`: `send` raises `RuntimeError` and `is_dead()` is true
  (the process already exited);
* `sendFailAlive msg`: `send` raises `RuntimeError(msg)` with the process
  still alive (the defensive fallback branch). -/
inductive StepOutcome where
  | ok (out : String)
  | okReceiveTimeout
  | sendFailDead
  | sendFailAlive (msg : String)
deriving DecidableEq, Repr

/-- Embedding of the local `append_non_empty_output` helper
(execution_manager.py lines 331-334): append an `Out` node only when the
received data is non-empty. -/
def appendNonEmptyOutput (result : List Node) (data : String) : List Node :=
  if data = "" then result else result ++ [Node.out data]

/-- The early-termination diagnostic built at execution_manager.py lines
359-364 from `missing = self.inputs[idx:]`. -/
def unusedInputsMessage (missing : List String) : String :=
  "Error: Process closed without consuming all inputs.\nUnused inputs:\n  " ++
    String.intercalate "\n" (missing.map (fun x => "    " ++ x))

/-- The defensive-fallback diagnostic built at execution_manager.py lines
373-377. -/
def internalErrorMessage (msg : String) : String :=
  "An internal error occurred while trying to interact with the script: " ++
    msg ++ "."

/-- The input loop of `run_pinteract` (execution_manager.py lines 348-387),
recursing over the remaining inputs.  `steps idx` is the process behaviour at
input index `idx`; the remaining list `inpt :: rest` is exactly
`self.inputs[idx:]`.  After the loop, `process.finish()` is asserted clean
(`finishClean` models `not any(error_)`); a dirty shutdown is an
`AssertionError`. -/
def runPinteractGo (steps : Nat → StepOutcome) (finishClean : Bool) :
    List String → Nat → List Node → Except PyExc TestCase
  | [], _, acc =>
      if finishClean then .ok (SimpleTestCase acc)
      else .error (.assertionError "process finished with errors")
  | inpt :: rest, idx, acc =>
      match steps idx with
      | .ok out =>
          runPinteractGo steps finishClean rest (idx + 1)
            (appendNonEmptyOutput (acc ++ [Node.inp inpt]) out)
      | .okReceiveTimeout =>
          .ok (ErrorTestCase.timeout (acc ++ [Node.inp inpt]))
      | .sendFailDead =>
          .ok (ErrorTestCase.runtime acc (unusedInputsMessage (inpt :: rest)))
      | .sendFailAlive msg =>
          .ok (ErrorTestCase.runtime acc (internalErrorMessage msg))

/-- Embedding of `PInteractExecutionManager.run_pinteract`
(execution_manager.py lines 316-387): drain the initial output, then run the
input loop starting from an empty interaction. -/
def run_pinteract (initialOutput : String) (steps : Nat → StepOutcome)
    (finishClean : Bool) (inputs : List String) : Except PyExc TestCase :=
  runPinteractGo steps finishClean inputs 0
    (appendNonEmptyOutput [] initialOutput)

/-! ## registry_class.py and langs/__init__.py -/

/-- Model of `LanguageRegistry._extensions` and the set of language ids with
a registered binding (the keys of `_build_managers`, which include aliases). -/
structure RegistryState where
  extensions : List (String × String)
  languages : List String
deriving DecidableEq, Repr

/-- Strip one leading dot, as both `_register_extension` and
`language_from_extension` do (`if ext.startswith('.'): ext = ext[1:]`). -/
def stripDot (ext : String) : String :=
  if pyStartsWith ext "." then ext.drop 1 else ext

/-- Association-list lookup for the extension table. -/
def lookupAssoc (m : List (String × String)) (k : String) : Option String :=
  (m.find? (fun e => e.1 = k)).map (fun e => e.2)

/-- Association-list store, last writer wins. -/
def storeAssoc (m : List (String × String)) (k v : String) :
    List (String × String) :=
  if m.any (fun e => e.1 = k) then
    m.map (fun e => if e.1 = k then (k, v) else e)
  else m ++ [(k, v)]

/-- Embedding of `LanguageRegistry._register_extension` (registry_class.py
lines 17-30) as used by every call site (all registrations in
`langs/__init__.py` leave `force` at its default `False`, so the conflict
branch is dead): strip a leading dot and map the extension to the language. -/
def registerExtension (m : List (String × String)) (ext language : String) :
    List (String × String) :=
  storeAssoc m (stripDot ext) language

/-- Embedding of `LanguageRegistry.register` (registry_class.py lines 32-47):
register every extension for the language, and record the manager
constructors under the language id and each alias. -/
def registerLang (st : RegistryState) (language : String)
    (exts : List String) (aliases : List String) : RegistryState :=
  { extensions :=
      exts.foldl (fun m e => registerExtension m e language) st.extensions,
    languages := st.languages ++ [language] ++ aliases }

/-- The registry populated by the ten `registry.register` calls of
`langs/__init__.py` (lines 1-77), in source order. -/
def ejudgeRegistry : RegistryState :=
  registerLang (registerLang (registerLang (registerLang (registerLang
    (registerLang (registerLang (registerLang (registerLang (registerLang
      ⟨[], []⟩
      "c" [".c"] ["gcc", "C", "cc"])
      "tcc" [] [])
      "clang" [] [])
      "c++" [".cpp", ".c++"] ["cpp", "g++", "C++"])
      "clang++" [] ["clang++"])
      "python" [".py", "py3"]
        ["python3", "python3x", "python3.x", "py", "py3", "py3x", "py3.x"])
      "python2" [".py2"] ["python27", "python2.7", "py2", "py27"])
      "python-script" [] [])
      "ruby" [".rb"] ["rb"])
      "pytuga" [".pytg"] ["pytg", "pytugues", "pytuguês"]

/-- Embedding of `LanguageRegistry.language_from_extension`
(registry_class.py lines 103-113): strip a leading dot and look the extension
up, raising `ValueError('unknown extension: %r' % ext)` when unmapped. -/
def language_from_extension (st : RegistryState) (ext : String) :
    Except PyExc String :=
  let e := stripDot ext
  match lookupAssoc st.extensions e with
  | some language => .ok language
  | none => .error (.valueError ("unknown extension: " ++ pyRepr e))

/-- The source-file extension each registered language's `BuildManager` class
declares (`source_extension` in `langs/c_family.py`, `langs/python_family.py`,
`langs/ruby.py`); integrated languages (`python`, `pytuga`) and aliases
declare none. -/
def langSourceExtension : String → Option String
  | "c" => some ".c"
  | "tcc" => some ".c"
  | "clang" => some ".c"
  | "c++" => some ".cpp"
  | "clang++" => some ".cpp"
  | "python2" => some ".py"
  | "python-script" => some ".py"
  | "ruby" => some ".rb"
  | _ => none

/-! ## functions.py: run_from_manager's execution call -/

/-- The call `run_from_manager` makes on the freshly constructed execution
manager for one input set. -/
inductive ExecCall where
  | runCall (timeoutArg : Option Nat)
  | runWithTimeoutCall (timeoutArg : Option Nat)
deriving DecidableEq, Repr

/-- Python truthiness of the optional `timeout` argument (`if timeout:`). -/
def pyTruthy : Option Nat → Bool
  | none => false
  | some n => n ≠ 0

/-- Embedding of functions.py lines 262-265:

`if timeout: result = ctrl.run()`
`else: result = ctrl.run_with_timeout(timeout)`

With a truthy timeout the manager's `run()` is invoked with no timeout
argument (so `interact` receives `None`); otherwise the nonexistent
`ctrl.run_with_timeout` is invoked.  (`ExecutionManager` defines no
`run_with_timeout` method, so that call raises `AttributeError` and is then
swallowed by the surrounding `except Exception` into a runtime-error test
case.) -/
def run_from_manager_call (timeout : Option Nat) : ExecCall :=
  if pyTruthy timeout then ExecCall.runCall none
  else ExecCall.runWithTimeoutCall timeout

/-! ## Path resolution, from the spec's words

The spec (§4.2) says writes are rejected when the target "resolves outside
the build directory", explicitly defending against path traversal.  The
following definitions formalise that wording — resolution of `.` and `..`
components — to be compared with the literal prefix check `ExtBuild.write`
performs. -/

/-- Split a character list at `/` separators. -/
def splitSlash : List Char → List Char → List String
  | [], cur => [String.mk cur.reverse]
  | c :: rest, cur =>
      if c = '/' then String.mk cur.reverse :: splitSlash rest []
      else splitSlash rest (c :: cur)

/-- Resolve a POSIX path to its normalized segment list, eliminating empty,
`.` and `..` components. -/
def resolveSegs (p : String) : List String :=
  (splitSlash p.toList []).foldl
    (fun acc seg =>
      if seg = "" ∨ seg = "." then acc
      else if seg = ".." then acc.dropLast
      else acc ++ [seg])
    []

/-- Whether `p` resolves to a location inside directory `base` (both
absolute): the resolved segments of `base` are a proper prefix of those of
`p`. -/
def resolvedInsideDir (base p : String) : Bool :=
  (resolveSegs base).isPrefixOf (resolveSegs p) &&
    !(resolveSegs base == resolveSegs p)

/-! ## Helper lemmas -/

/-- A prefix of `s` is also a prefix of `s ++ x`. -/
theorem pyStartsWith_append_left (s x p : String)
    (h : pyStartsWith s p = true) : pyStartsWith (s ++ x) p = true := by
  unfold pyStartsWith at h ⊢
  rw [List.isPrefixOf_iff_prefix] at h ⊢
  show p.data <+: (s ++ x).data
  rw [String.data_append]
  exact h.trans (List.prefix_append _ _)

/-- Every string is a prefix of itself followed by anything. -/
theorem pyStartsWith_append (s x : String) : pyStartsWith (s ++ x) s = true := by
  unfold pyStartsWith
  rw [List.isPrefixOf_iff_prefix]
  show s.data <+: (s ++ x).data
  rw [String.data_append]
  exact List.prefix_append _ _

/-- A string starting with a slash is non-empty. -/
theorem startsWith_slash_ne_empty (t : String)
    (h : pyStartsWith t "/" = true) : ¬ t = "" := by
  intro he
  subst he
  exact absurd h (by decide)

/-- The canonical source file name `main.<ext>` never starts with a slash. -/
theorem main_dot_not_slash (s : String) :
    pyStartsWith ("main." ++ s) "/" = false := by
  unfold pyStartsWith
  show List.isPrefixOf "/".data ("main." ++ s).data = false
  rw [String.data_append]
  rfl

/-- The canonical relative source name never starts with a slash, whatever
the source extension is. -/
theorem srcName_not_abs (ext : String) :
    pyStartsWith (extSourceName ext) "/" = false := by
  unfold extSourceName
  split
  · decide
  · exact main_dot_not_slash _

/-- A freshly stored file exists. -/
theorem fileExists_storeFile_self (fs : List (String × String)) (p v : String) :
    fileExists (storeFile fs p v) p = true := by
  unfold storeFile fileExists
  split
  · next h =>
      rcases List.any_eq_true.mp h with ⟨e, he, hp⟩
      refine List.any_eq_true.mpr ⟨(p, v), List.mem_map.mpr ⟨e, he, ?_⟩, by simp⟩
      simp at hp
      simp [hp]
  · exact List.any_eq_true.mpr ⟨(p, v), by simp⟩

/-- Whether an `Except` outcome is a returned value rather than a raised
exception. -/
def resultOk : Except PyExc TestCase → Bool
  | .ok _ => true
  | .error _ => false

/-- Decidable equality of modelled Python call outcomes. -/
instance : DecidableEq (Except PyExc String) := fun x y =>
  match x, y with
  | .ok a, .ok b =>
      if h : a = b then .isTrue (h ▸ rfl)
      else .isFalse (fun he => h (Except.ok.inj he))
  | .error a, .error b =>
      if h : a = b then .isTrue (h ▸ rfl)
      else .isFalse (fun he => h (Except.error.inj he))
  | .ok _, .error _ => .isFalse (fun he => Except.noConfusion he)
  | .error _, .ok _ => .isFalse (fun he => Except.noConfusion he)

/-! ## Claim C10 -/

/-- C10: in an in-process run, a call to the instrumented print with an
explicit file argument that is neither `None` nor `sys.stdout` is forwarded
to the real print unchanged and appends no node to the interaction trace:
only output directed at standard output is recorded. -/
theorem C10_print_to_other_file_not_recorded (st : IoState) (t : String) :
    stepOp st (PyOp.printFile t) =
      ({ st with external := st.external ++ [t ++ "\n"] }, none) := rfl

/-! ## Claim C5 -/

/-- C5: the compiler is invoked under a 10-second wall-clock bound and a
non-zero exit status becomes `BuildError` carrying the combined
stdout/stderr, but a compile timeout does *not* raise `BuildError`: the
`subprocess.TimeoutExpired` raised by `check_output` is not a subclass of the
builtin `TimeoutError` the code catches, so it propagates uncaught. -/
theorem C5_compile_timeout_escapes :
    compileInvocationTimeout = 10 ∧
    (∀ out, compile_files (CompileOutcome.nonzeroExit out) =
      .error (PyExc.buildError out)) ∧
    compile_files CompileOutcome.timedOut =
      .error (PyExc.subprocessTimeoutExpired "command timed out") ∧
    (∀ msg, ¬ compile_files CompileOutcome.timedOut =
      .error (PyExc.buildError msg)) := by
  refine ⟨rfl, fun out => rfl, rfl, fun msg h => ?_⟩
  simp [compile_files, checkOutputResult, PyExc.isTimeoutError,
    PyExc.isCalledProcessError] at h

/-! ## Claim C7 -/

/-- C7: `close()` marks the manager closed and a second `close()` is a no-op,
but it releases nothing: the modelled temporary directory and its file
contents are untouched, because `BuildManager.close` only sets `is_closed`
and no subclass overrides it (the repository contains no temp-directory
removal at all). -/
theorem C7_close_releases_no_resources (bm : ExtBuild) :
    (bm.close).isClosed = true ∧
    (bm.close).files = bm.files ∧
    (bm.close).buildPath = bm.buildPath ∧
    bm.close.close = bm.close :=
  ⟨rfl, rfl, rfl, rfl⟩

/-! ## Claim C1 -/

/-- C1: `ExecutionManager.run` does substitute a timeout-classified trace
when `TimeoutError` escapes `interact()` (first conjunct, on a fresh manager
over an already-built build manager), but the library-level entry point does
not enforce the budget: `run_from_manager` with a truthy timeout invokes the
manager's `run()` with *no* timeout argument, and with a falsy timeout
invokes the nonexistent `run_with_timeout` (functions.py lines 262-265 have
the branches inverted). -/
theorem C1_timeout_trace_but_budget_dropped :
    ExecutionManager.run ⟨false, false, []⟩ ⟨true, false, false⟩
        (.ok ()) (.error (PyExc.timeoutError "timeout")) false =
      (⟨true, true, []⟩, ⟨true, false, true⟩,
        .ok ⟨CaseType.timeoutErr, [], none⟩) ∧
    run_from_manager_call (some 5) = ExecCall.runCall none ∧
    run_from_manager_call none = ExecCall.runWithTimeoutCall none := by
  refine ⟨?_, rfl, rfl⟩
  rfl

/-! ## Claim C9 -/

/-- C9 counterexample: a run whose `interact` raises `TimeoutError` — hence
ends in a timeout-classified trace — still sets the build manager's
`has_successful_execution` flag, because `end()` sets it unconditionally;
the claim says such a run leaves the flag unchanged. -/
theorem C9_timeout_run_sets_flag :
    ((ExecutionManager.run ⟨false, false, []⟩ ⟨true, false, false⟩
        (.ok ()) (.error (PyExc.timeoutError "t")) false).2.1).hasSuccessfulExecution
      = true ∧
    (ExecutionManager.run ⟨false, false, []⟩ ⟨true, false, false⟩
        (.ok ()) (.error (PyExc.timeoutError "t")) false).2.2 =
      .ok ⟨CaseType.timeoutErr, [], none⟩ :=
  ⟨rfl, rfl⟩

/-- C9 amended: the `has_successful_execution` flag after `run` equals its
previous value or-ed with "the run returned a trace": every completed run —
success, timeout or runtime-error classified alike — sets it, a run that
raises (guard violations, build failure, a non-timeout exception escaping
`interact`) leaves it unchanged, and it is never cleared. -/
theorem C9_flag_tracks_completed_runs (em : EMState) (bm : BMState)
    (buildResult : Except PyExc Unit)
    (interactOutcome : Except PyExc TestCase) (cs : Bool) :
    ((ExecutionManager.run em bm buildResult interactOutcome cs).2.1).hasSuccessfulExecution
      = (bm.hasSuccessfulExecution ||
          resultOk (ExecutionManager.run em bm buildResult interactOutcome cs).2.2) := by
  unfold ExecutionManager.run
  split
  · simp [resultOk]
  · split
    · simp [resultOk]
    · split
      · simp [resultOk]
      · split
        · simp [finishRun, resultOk]
        · split
          · simp [finishRun, resultOk]
          · simp [resultOk]

/-! ## Claim C2 -/

/-- A fresh external build manager for a syntactically valid C source. -/
def sampleCSource : ExtBuild :=
  ⟨"int main() { return 0; }", ".c", true, "", false, false, false, none, []⟩

/-- C2 counterexample: after a successful first `build()`, a second `build()`
on the same external build manager is not a no-op returning the cached
artifact — it raises `RuntimeError('file already exist: ...')`, because
`build` re-runs `prepare_files` unconditionally. -/
theorem C2_second_build_raises :
    (sampleCSource.buildStep "/tmp/ejudge-build").2 = .ok () ∧
    ((sampleCSource.buildStep "/tmp/ejudge-build").1.buildStep "/tmp/other").2 =
      .error (PyExc.runtimeError
        ("file already exist: " ++ pyRepr "/tmp/ejudge-build/main.c")) :=
  ⟨rfl, rfl⟩

/-- C2 amended: for an external-program build manager, `build()` is not
itself idempotent.  Starting from a fresh manager (no build path, empty
build directory) with valid syntax, the first `build()` succeeds and
produces the artifact; calling `build()` again raises
`RuntimeError('file already exist: <source filename>')` and leaves the
artifact exactly as the first call left it.  (Callers obtain
build-once behaviour by checking `is_built` before calling `build()`.) -/
theorem C2_amended_second_build_raises (bm : ExtBuild) (t t' : String)
    (hfresh : bm.buildPath = none) (hfiles : bm.files = [])
    (hsyn : bm.syntaxOk = true)
    (habs : pyStartsWith t "/" = true) (hslash : pyEndsWith t "/" = false) :
    ∃ bm' : ExtBuild,
      bm.buildStep t = (bm', .ok ()) ∧
      bm'.buildStep t' =
        (bm', .error (PyExc.runtimeError
          ("file already exist: " ++ pyRepr (bm'.get_source_filename true)))) := by
  have hname : pyStartsWith (extSourceName bm.sourceExtension) "/" = false :=
    srcName_not_abs bm.sourceExtension
  have hne : ¬ t = "" := startsWith_slash_ne_empty t habs
  have hpref :
      pyStartsWith (t ++ "/" ++ extSourceName bm.sourceExtension) (t ++ "/")
        = true :=
    pyStartsWith_append _ _
  have habs2 :
      pyStartsWith (t ++ "/" ++ extSourceName bm.sourceExtension) "/" = true :=
    pyStartsWith_append_left _ _ _ (pyStartsWith_append_left _ _ _ habs)
  refine ⟨{ bm with
            buildPath := some t
            files := [(t ++ "/" ++ extSourceName bm.sourceExtension, bm.source)]
            isBuilt := true }, ?_, ?_⟩
  · simp [ExtBuild.buildStep, ExtBuild.prepare_files, ExtBuild.write,
      ExtBuild.get_source_filename, ExtBuild.sourceName, osPathJoin,
      fileExists, storeFile, hsyn, hfresh, hfiles, hslash, hpref, habs2, hname]
  · simp [ExtBuild.buildStep, ExtBuild.prepare_files, ExtBuild.write,
      ExtBuild.get_source_filename, ExtBuild.sourceName, osPathJoin,
      fileExists, storeFile, hsyn, hne, hslash, hpref, habs2, hname]

/-- C2 amended, witness: the amended behaviour at the concrete fresh manager
`sampleCSource`. -/
theorem C2_amended_witness :
    ∃ bm' : ExtBuild,
      sampleCSource.buildStep "/tmp/ejudge-build" = (bm', .ok ()) ∧
      bm'.buildStep "/tmp/other" =
        (bm', .error (PyExc.runtimeError
          ("file already exist: " ++ pyRepr (bm'.get_source_filename true)))) :=
  C2_amended_second_build_raises sampleCSource "/tmp/ejudge-build" "/tmp/other"
    rfl rfl rfl (by decide) (by decide)

/-! ## Claim C3 -/

/-- C3 counterexample: a process that is already dead at the first `send`
produces a *runtime-error*-classified trace, not an early-termination
classification: `run_pinteract` returns `ErrorTestCase.runtime(...)`
(execution_manager.py lines 366-369), and `EarlyTerminationError` is never
raised anywhere in the repository. -/
theorem C3_dead_process_classified_runtime :
    run_pinteract "" (fun _ => StepOutcome.sendFailDead) true ["a", "b"] =
      .ok ⟨CaseType.runtimeErr, [], some (unusedInputsMessage ["a", "b"])⟩ ∧
    CaseType.runtimeErr ≠ CaseType.earlyTermination := by
  exact ⟨rfl, by decide⟩

/-- The trace accumulated by the input loop while `send` keeps succeeding:
for each consumed input, its `In` node followed by the non-empty output
`outs idx` received after it, exactly as the `.ok` branch of
`runPinteractGo` accumulates. -/
def okLoopTrace (outs : Nat → String) :
    List String → Nat → List Node → List Node
  | [], _, acc => acc
  | inpt :: rest, idx, acc =>
      okLoopTrace outs rest (idx + 1)
        (appendNonEmptyOutput (acc ++ [Node.inp inpt]) (outs idx))

/-- Loop-level form of the amended claim: when the process consumes the
first `k` inputs (receiving `outs j` after input `j`) and `send` fails with
the process dead at input `k`, the interaction stops and yields a
runtime-error-classified trace carrying exactly the nodes collected so far
plus the diagnostic listing `inputs[k:]`. -/
theorem runPinteractGo_dead_at (steps : Nat → StepOutcome)
    (outs : Nat → String) (fc : Bool) :
    ∀ (k : Nat) (rem : List String) (idx : Nat) (acc : List Node),
      k < rem.length →
      steps (idx + k) = StepOutcome.sendFailDead →
      (∀ j, j < k → steps (idx + j) = StepOutcome.ok (outs (idx + j))) →
      runPinteractGo steps fc rem idx acc =
        .ok (ErrorTestCase.runtime (okLoopTrace outs (rem.take k) idx acc)
          (unusedInputsMessage (rem.drop k))) := by
  intro k
  induction k with
  | zero =>
      intro rem idx acc hk hdead _
      match rem, hk with
      | inpt :: rest, _ =>
          simp only [Nat.add_zero] at hdead
          simp [runPinteractGo, hdead, okLoopTrace]
  | succ k ih =>
      intro rem idx acc hk hdead hok
      match rem, hk with
      | inpt :: rest, hk =>
          have hout := hok 0 (Nat.succ_pos k)
          simp only [Nat.add_zero] at hout
          have hrec := ih rest (idx + 1)
            (appendNonEmptyOutput (acc ++ [Node.inp inpt]) (outs idx))
            (Nat.lt_of_succ_lt_succ hk)
            (by simpa [Nat.add_assoc, Nat.add_comm 1 k] using hdead)
            (fun j hj => by
              simpa [Nat.add_assoc, Nat.add_comm 1 j] using hok (j + 1)
                (Nat.succ_lt_succ hj))
          simp [runPinteractGo, hout, hrec, okLoopTrace, List.take_succ_cons,
            List.drop_succ_cons]

/-- C3 amended: when the external process exits before consuming all
scheduled inputs (dead at input index `k` after consuming the first `k`,
each followed by received output `outs j`), `run_pinteract` stops and
returns a **runtime-error**-classified trace (the code uses
`ErrorTestCase.runtime`, not a distinct early-termination classification)
whose node list is exactly the already-collected trace — the initial output
followed by the consumed inputs' `In` nodes interleaved with their outputs —
and whose diagnostic lists exactly the failed input and all inputs after
it. -/
theorem C3_amended_dead_process_truncated_trace (initOut : String)
    (steps : Nat → StepOutcome) (outs : Nat → String) (fc : Bool)
    (inputs : List String) (k : Nat)
    (hk : k < inputs.length)
    (hdead : steps k = StepOutcome.sendFailDead)
    (hok : ∀ j, j < k → steps j = StepOutcome.ok (outs j)) :
    run_pinteract initOut steps fc inputs =
      .ok (ErrorTestCase.runtime
        (okLoopTrace outs (inputs.take k) 0 (appendNonEmptyOutput [] initOut))
        (unusedInputsMessage (inputs.drop k))) := by
  have h := runPinteractGo_dead_at steps outs fc k inputs 0
    (appendNonEmptyOutput [] initOut) hk (by simpa using hdead)
    (fun j hj => by simpa using hok j hj)
  simpa [run_pinteract] using h

/-- C3 amended, witness: a process that prints `hi`, consumes input `a`
answering `x`, and is dead at the second input: the trace carries the
collected nodes `[Out "hi", In "a", Out "x"]` and the diagnostic lists the
unconsumed `["b", "c"]`. -/
theorem C3_amended_witness :
    run_pinteract "hi" (fun i => if i = 1 then StepOutcome.sendFailDead
        else StepOutcome.ok "x") true ["a", "b", "c"] =
      .ok (ErrorTestCase.runtime [Node.out "hi", Node.inp "a", Node.out "x"]
        (unusedInputsMessage ["b", "c"])) := by
  have h := C3_amended_dead_process_truncated_trace "hi"
    (fun i => if i = 1 then StepOutcome.sendFailDead else StepOutcome.ok "x")
    (fun _ => "x") true ["a", "b", "c"] 1 (by decide) (by decide)
    (fun j hj => by
      have hj0 : j = 0 := Nat.lt_one_iff.mp hj
      subst hj0
      rfl)
  simpa [okLoopTrace, appendNonEmptyOutput, unusedInputsMessage] using h

/-! ## Claim C4 -/

/-- An already-built external manager with build path `/tmp/build`. -/
def sampleBuilt : ExtBuild :=
  ⟨"src", ".c", true, "", false, true, false, some "/tmp/build", []⟩

/-- C4 counterexample: the path `/tmp/build/../secret` begins with the build
directory prefix but resolves outside it, yet `write` accepts it and writes
the file — no `PermissionError` — because the code only checks
`path.startswith(build_path + os.path.sep)` and never resolves `..`
components. -/
theorem C4_traversal_path_not_rejected :
    resolvedInsideDir "/tmp/build" "/tmp/build/../secret" = false ∧
    (sampleBuilt.write "/tmp/build/../secret" "data").2 = .ok () ∧
    (sampleBuilt.write "/tmp/build/../secret" "data").1.files =
      [("/tmp/build/../secret", "data")] := by
  refine ⟨by decide, rfl, rfl⟩

/-- C4 amended: `write` rejects with `PermissionError` exactly the paths
that do not literally begin with `build_path + os.path.sep` (writing
nothing); any path starting with that prefix is accepted and written, even
when parent-directory components make it resolve outside the build
directory.  In particular a write to a path inside the build directory
succeeds. -/
theorem C4_amended_prefix_check_only (bm : ExtBuild) (bp path data : String)
    (h : bm.buildPath = some bp) :
    (pyStartsWith path (bp ++ "/") = false →
      bm.write path data =
        (bm, .error (PyExc.permissionError (writeDeniedMsg path bp)))) ∧
    (pyStartsWith path (bp ++ "/") = true →
      (bm.write path data).2 = .ok ()) := by
  constructor <;> (intro hc; simp [ExtBuild.write, h, hc])

/-- C4 amended, witness: at `sampleBuilt`, the absolute path `/etc/passwd`
fails the prefix check and is rejected, while a path under the build
directory is accepted. -/
theorem C4_amended_witness :
    (pyStartsWith "/etc/passwd" ("/tmp/build" ++ "/") = false →
      sampleBuilt.write "/etc/passwd" "d" =
        (sampleBuilt,
          .error (PyExc.permissionError (writeDeniedMsg "/etc/passwd" "/tmp/build")))) ∧
    (pyStartsWith "/etc/passwd" ("/tmp/build" ++ "/") = true →
      (sampleBuilt.write "/etc/passwd" "d").2 = .ok ()) :=
  C4_amended_prefix_check_only sampleBuilt "/tmp/build" "/etc/passwd" "d" rfl

/-! ## Claim C6 -/

/-- Number of `input()` calls the program performs when run to completion. -/
def inputRequests : List PyOp → Nat
  | [] => 0
  | PyOp.inputOp _ :: rest => inputRequests rest + 1
  | _ :: rest => inputRequests rest

/-- Whether the program raises an exception of its own. -/
def hasRaiseOp : List PyOp → Bool
  | [] => false
  | PyOp.raiseOp _ :: _ => true
  | _ :: rest => hasRaiseOp rest

/-- A program with more input requests than remaining inputs, and no
exception of its own, always ends with `MissingInputError`. -/
theorem runOps_exhausts (program : List PyOp) :
    ∀ st : IoState, hasRaiseOp program = false →
      st.remaining.length < inputRequests program →
      (runOps program st).2 =
        some (PyExc.missingInputError "not enough inputs") := by
  induction program with
  | nil =>
      intro st _ hlt
      simp [inputRequests] at hlt
  | cons op rest ih =>
      intro st hr hlt
      cases op with
      | printStdout t =>
          simp only [runOps, stepOp]
          exact ih _ (by simpa [hasRaiseOp] using hr)
            (by simpa [inputRequests] using hlt)
      | printFile t =>
          simp only [runOps, stepOp]
          exact ih _ (by simpa [hasRaiseOp] using hr)
            (by simpa [inputRequests] using hlt)
      | raiseOp m => simp [hasRaiseOp] at hr
      | inputOp prompt =>
          have hr' : hasRaiseOp rest = false := by simpa [hasRaiseOp] using hr
          have hlt' : st.remaining.length < inputRequests rest + 1 := by
            simpa [inputRequests] using hlt
          cases prompt with
          | none =>
              cases hrem : st.remaining with
              | nil => simp [runOps, stepOp, hrem]
              | cons r rs =>
                  simp only [runOps, stepOp, hrem]
                  exact ih _ hr' (by
                    have := hlt'
                    rw [hrem] at this
                    simpa using Nat.lt_of_succ_lt_succ this)
          | some p =>
              cases hrem : st.remaining with
              | nil => simp [runOps, stepOp, hrem]
              | cons r rs =>
                  simp only [runOps, stepOp, hrem]
                  exact ih _ hr' (by
                    have := hlt'
                    rw [hrem] at this
                    simpa using Nat.lt_of_succ_lt_succ this)

/-- C6: in an in-process run whose program performs more `input()` calls
than inputs were supplied (and raises nothing on its own), the instrumented
input primitive raises `MissingInputError` once the supply is exhausted, and
`wrapped_exec` converts it into a runtime-error-classified trace carrying
the interaction collected up to that point. -/
theorem C6_missing_input_runtime_trace (program : List PyOp)
    (inputs : List String)
    (hraise : hasRaiseOp program = false)
    (hcount : inputs.length < inputRequests program) :
    wrapped_exec program inputs =
      ErrorTestCase.runtime (runOps program ⟨[], inputs, []⟩).1.interaction
        (format_traceback (PyExc.missingInputError "not enough inputs")) := by
  have h2 := runOps_exhausts program ⟨[], inputs, []⟩ hraise (by simpa using hcount)
  unfold wrapped_exec
  rcases hE : runOps program ⟨[], inputs, []⟩ with ⟨st, oe⟩
  rw [hE] at h2
  simp only at h2
  subst h2
  simp

/-- C6 witness: the one-line program `input()` with no inputs supplied. -/
theorem C6_witness :
    hasRaiseOp [PyOp.inputOp none] = false ∧
    ([] : List String).length < inputRequests [PyOp.inputOp none] ∧
    wrapped_exec [PyOp.inputOp none] [] =
      ErrorTestCase.runtime
        (runOps [PyOp.inputOp none] ⟨[], [], []⟩).1.interaction
        (format_traceback (PyExc.missingInputError "not enough inputs")) :=
  ⟨rfl, by decide,
    C6_missing_input_runtime_trace [PyOp.inputOp none] [] rfl (by decide)⟩

/-! ## Claim C8 -/

/-- C8 counterexample: `python2` has a registered binding and its build
manager's own source extension is `.py`, but resolving `.py` through the
registry yields `python`, not `python2` — the roundtrip
`resolveLanguage(extensionOf(L)) == L` fails. -/
theorem C8_python2_roundtrip_fails :
    "python2" ∈ ejudgeRegistry.languages ∧
    langSourceExtension "python2" = some ".py" ∧
    language_from_extension ejudgeRegistry ".py" = .ok "python" ∧
    "python" ≠ "python2" := by
  refine ⟨by decide, rfl, by decide, by decide⟩

/-- C8 amended: every extension registered in the extension table resolves
to the language that registered it (`.c` to `c`, `.cpp`/`.c++` to `c++`,
`.py`/`py3` to `python`, `.py2` to `python2`, `.rb` to `ruby`, `.pytg` to
`pytuga`), and an unregistered extension fails with
`ValueError('unknown extension: ...')`; but the roundtrip through a
language's *own* source extension fails for `tcc`, `clang` and `clang++`
(their `.c`/`.cpp` resolve to `c`/`c++`) and for `python2` and
`python-script` (their `.py` resolves to `python`). -/
theorem C8_amended_extension_resolution :
    language_from_extension ejudgeRegistry ".c" = .ok "c" ∧
    language_from_extension ejudgeRegistry ".cpp" = .ok "c++" ∧
    language_from_extension ejudgeRegistry ".c++" = .ok "c++" ∧
    language_from_extension ejudgeRegistry ".py" = .ok "python" ∧
    language_from_extension ejudgeRegistry "py3" = .ok "python" ∧
    language_from_extension ejudgeRegistry ".py2" = .ok "python2" ∧
    language_from_extension ejudgeRegistry ".rb" = .ok "ruby" ∧
    language_from_extension ejudgeRegistry ".pytg" = .ok "pytuga" ∧
    language_from_extension ejudgeRegistry ".java" =
      .error (PyExc.valueError ("unknown extension: " ++ pyRepr "java")) ∧
    (langSourceExtension "tcc" = some ".c" ∧
      ¬ language_from_extension ejudgeRegistry ".c" = .ok "tcc") ∧
    (langSourceExtension "clang" = some ".c" ∧
      ¬ language_from_extension ejudgeRegistry ".c" = .ok "clang") ∧
    (langSourceExtension "clang++" = some ".cpp" ∧
      ¬ language_from_extension ejudgeRegistry ".cpp" = .ok "clang++") ∧
    (langSourceExtension "python2" = some ".py" ∧
      ¬ language_from_extension ejudgeRegistry ".py" = .ok "python2") ∧
    (langSourceExtension "python-script" = some ".py" ∧
      ¬ language_from_extension ejudgeRegistry ".py" = .ok "python-script") := by
  decide

end Ejudge
